import Mathlib

/-!
Verification of the example-pair validation harness and corpus properties of
the code-quality-tools teaching repository.

The repository itself is a corpus of Python fixture files.  The harness
(discovery, tool invocation, classification, aggregation, exit-code mapping)
is described by the specification as inferred scaffolding that is not present
as code in the repository, so it is modelled here from the specification.
The fixture files (calculator, pytest good example, the import structure of
the corpus) are embedded from the source files themselves.
-/

set_option maxRecDepth 4000

namespace Harness

/-- Modelled from the spec: the closed set of tool identifiers of an
ExampleCase (spec section 3); the harness code is absent from the repository,
so the whole harness in this namespace is modelled from the specification. -/
inductive ToolId
  | securityScan
  | formatter
  | importSorter
  | typeChecker
  | styleLinter
  | testRunner
  deriving DecidableEq, Repr

/-- Modelled from the spec: the three expectation kinds of an ExampleCase
(spec section 3). -/
inductive Expectation
  | expect_clean
  | expect_findings
  | expect_tests_pass
  deriving DecidableEq, Repr

/-- Modelled from the spec: an ExampleCase — one fixture file with its path,
tool identifier and expectation kind (spec section 3). -/
structure ExampleCase where
  path : String
  tool : ToolId
  expectation : Expectation
  deriving DecidableEq, Repr

/-- Modelled from the spec: the classification of one ToolInvocation against
its ExampleCase's expectation (spec section 3). -/
inductive CaseResult
  | PASS
  | FAIL
  | ERROR
  deriving DecidableEq, Repr

/-- Modelled from the spec: the outcome of one ToolInvocation (spec sections
3 and 4.2): the process completed with a captured exit status, captured
output and an optionally parsed test count; or the tool binary was missing
or the process unstartable (ExecutionError); or the per-case timeout elapsed
(TimeoutError); or the tool itself crashed while running (spec section 3
lists ERROR as "tool itself could not run — missing binary, crash,
timeout"). -/
inductive InvocationOutcome
  | completed (exitStatus : Nat) (output : String) (testCount : Option Nat)
  | execError
  | timedOut
  | crashed
  deriving DecidableEq, Repr

/-- Modelled from the spec: the discovery-level failure (spec section 4.1):
the corpus root does not exist or is not readable. -/
inductive DiscoveryError
  | rootMissing
  | rootUnreadable
  deriving DecidableEq, Repr

/-- Modelled from the spec: the behaviour of the external tool environment for
one invocation — whether the binary can be located, whether the process can be
started, how long it runs, and what it reports (spec section 4.2). -/
structure ToolEnv where
  binaryFound : Bool
  processStarts : Bool
  duration : Nat
  exitStatus : Nat
  output : String
  testCount : Option Nat

/-- Modelled from the spec: tool invocation (spec section 4.2).  Raises
ExecutionError exactly when the binary cannot be located or the process
cannot be started, signals TimeoutError when the timeout elapses, and
otherwise returns the captured exit status and output uninterpreted. -/
def invokeTool (env : ToolEnv) (timeout : Nat) : InvocationOutcome :=
  if env.binaryFound = false ∨ env.processStarts = false then .execError
  else if timeout < env.duration then .timedOut
  else .completed env.exitStatus env.output env.testCount

/-- Modelled from the spec: result classification (spec section 4.3 policy
table).  An invocation that itself errored classifies as ERROR regardless of
the expectation; a malformed or absent test count classifies as FAIL. -/
def classify (e : Expectation) (out : InvocationOutcome) : CaseResult :=
  match out with
  | .execError => .ERROR
  | .timedOut => .ERROR
  | .crashed => .ERROR
  | .completed exitStatus _ testCount =>
    match e with
    | .expect_clean => if exitStatus = 0 then .PASS else .FAIL
    | .expect_findings => if exitStatus ≠ 0 then .PASS else .FAIL
    | .expect_tests_pass =>
      match testCount with
      | some k => if exitStatus = 0 ∧ 0 < k then .PASS else .FAIL
      | none => .FAIL

/-- Modelled from the spec: run one case — invoke the tool and classify the
outcome against the case's expectation (spec section 4, state machine
DISCOVERED to INVOKED to a terminal classification). -/
def runCase (invoke : ExampleCase → InvocationOutcome) (c : ExampleCase) :
    ExampleCase × CaseResult :=
  (c, classify c.expectation (invoke c))

/-- Modelled from the spec: run every discovered case in discovery order,
capturing one CaseResult per case (spec sections 4.4 and 7). -/
def collectResults (invoke : ExampleCase → InvocationOutcome)
    (cases : List ExampleCase) : List (ExampleCase × CaseResult) :=
  cases.map (runCase invoke)

/-- Modelled from the spec: a whole harness run — only a DiscoveryError aborts
before any case executes; otherwise every discovered case is classified into
the Report (spec section 7, propagation policy). -/
def runHarness (discovery : Except DiscoveryError (List ExampleCase))
    (invoke : ExampleCase → InvocationOutcome) :
    Except DiscoveryError (List (ExampleCase × CaseResult)) :=
  match discovery with
  | .error e => .error e
  | .ok cases => .ok (collectResults invoke cases)

/-- Modelled from the spec: the per-tool summary count of one classification
value in a Report (spec section 4.4). -/
def countOf (t : ToolId) (r : CaseResult)
    (rep : List (ExampleCase × CaseResult)) : Nat :=
  (rep.filter (fun p => p.1.tool = t ∧ p.2 = r)).length

/-- Modelled from the spec: the closed list of all tool identifiers. -/
def allTools : List ToolId :=
  [.securityScan, .formatter, .importSorter, .typeChecker, .styleLinter,
   .testRunner]

/-- Modelled from the spec: the grand total of the per-tool pass, fail and
error summary counts of a Report (spec section 8, count-sum property). -/
def summaryTotal (rep : List (ExampleCase × CaseResult)) : Nat :=
  (allTools.map
    (fun t => countOf t .PASS rep + countOf t .FAIL rep + countOf t .ERROR rep)).sum

/-- Modelled from the spec: look up the CaseResult recorded for a given case
path in a completed-results collection (spec section 5, the append-only
Report collector filled in arbitrary completion order). -/
def findResult (path : String) :
    List (ExampleCase × CaseResult) → Option CaseResult
  | [] => none
  | p :: rest => if p.1.path = path then some p.2 else findResult path rest

/-- Modelled from the spec: report rendering — re-sort the completed results
into discovery order before rendering, one line per discovered case (spec
sections 4.4 and 5, ordering guarantee). -/
def renderReport (cases : List ExampleCase)
    (completed : List (ExampleCase × CaseResult)) :
    List (String × Option CaseResult) :=
  cases.map (fun c => (c.path, findResult c.path completed))

/-- Modelled from the spec: the CLI exit-code mapper (spec section 6): 0 when
all classifications are PASS, 1 when any FAIL or ERROR exists, 2 on a
discovery-level failure. -/
def exitCode
    (outcome : Except DiscoveryError (List (ExampleCase × CaseResult))) : Nat :=
  match outcome with
  | .error _ => 2
  | .ok rep => if rep.all (fun p => p.2 = .PASS) then 0 else 1

end Harness

namespace Calculator

/-- Errors raised by the calculator module
(src/sample_project/src/calculator.py). -/
inductive CalcError
  | valueError
  deriving DecidableEq, Repr

/-- The add function of src/sample_project/src/calculator.py: return a + b.
Numbers (Python int or float) are embedded as rationals. -/
def add (a b : ℚ) : ℚ := a + b

/-- The divide function of src/sample_project/src/calculator.py: raise
ValueError when b == 0, otherwise return a / b. -/
def divide (a b : ℚ) : Except CalcError ℚ :=
  if b = 0 then .error .valueError else .ok (a / b)

end Calculator

namespace PytestGood

/-- Errors raised by the functions of src/tools/pytest/good_example.py. -/
inductive PyError
  | typeError
  | valueError
  deriving DecidableEq, Repr

/-- A Python number argument: either an int or a non-int number (embedded as
a rational), as distinguished by the isinstance(n, int) check of the
source. -/
inductive PyNum
  | int (n : Int)
  | float (q : ℚ)
  deriving DecidableEq, Repr

/-- State of the loop of fibonacci (src/tools/pytest/good_example.py lines
53-55) after k iterations, starting from a, b = 0, 1 and stepping
a, b = b, a + b. -/
def fibLoop : Nat → Int × Int
  | 0 => (0, 1)
  | k + 1 => ((fibLoop k).2, (fibLoop k).1 + (fibLoop k).2)

/-- The fibonacci function of src/tools/pytest/good_example.py lines 41-56:
TypeError on a non-int input, ValueError on a negative input, 0 and 1 as base
cases, and otherwise the second component of the loop state after iterating
over range(2, n + 1), that is n - 1 steps. -/
def fibonacci : PyNum → Except PyError Int
  | .float _ => .error .typeError
  | .int n =>
    if n < 0 then .error .valueError
    else if n = 0 then .ok 0
    else if n = 1 then .ok 1
    else .ok (fibLoop (n - 1).toNat).2

/-- The reference Fibonacci recurrence named by the claim: F(0)=0, F(1)=1,
F(n)=F(n-1)+F(n-2). -/
def fibSpec : Nat → Nat
  | 0 => 0
  | 1 => 1
  | n + 2 => fibSpec n + fibSpec (n + 1)

/-- One entry of the items list of ShoppingCart
(src/tools/pytest/good_example.py lines 178-182): the stripped item name, the
price and the quantity. -/
structure CartItem where
  item : String
  price : ℚ
  quantity : Int
  deriving DecidableEq, Repr

/-- The ShoppingCart class of src/tools/pytest/good_example.py lines 163-200:
its only state is the items list. -/
structure ShoppingCart where
  items : List CartItem
  deriving DecidableEq, Repr

/-- The ShoppingCart constructor: self.items = []. -/
def ShoppingCart.new : ShoppingCart := ⟨[]⟩

/-- The Python str.strip() method with no argument: remove whitespace from
both ends of the string. -/
def pyStrip (s : String) : String :=
  ⟨((s.data.dropWhile Char.isWhitespace).reverse.dropWhile
      Char.isWhitespace).reverse⟩

/-- The add_item method (lines 169-182): ValueError when the stripped item
name is empty, the price is negative, or the quantity is not positive;
otherwise append the entry with the stripped name. -/
def addItem (c : ShoppingCart) (item : String) (price : ℚ) (quantity : Int) :
    Except PyError ShoppingCart :=
  if pyStrip item = "" then .error .valueError
  else if price < 0 then .error .valueError
  else if quantity ≤ 0 then .error .valueError
  else .ok ⟨c.items ++ [⟨pyStrip item, price, quantity⟩]⟩

/-- The get_total method (lines 184-186): sum of price * quantity over the
items. -/
def getTotal (c : ShoppingCart) : ℚ :=
  (c.items.map (fun it => it.price * (it.quantity : ℚ))).sum

/-- The get_item_count method (lines 194-196): sum of the quantities. -/
def getItemCount (c : ShoppingCart) : Int :=
  (c.items.map (fun it => it.quantity)).sum

/-- The apply_bulk_discount method (lines 188-192): discounted total when the
item count reaches min_items, otherwise the plain total; the cart itself is
not modified. -/
def applyBulkDiscount (c : ShoppingCart) (minItems : Int) (discountRate : ℚ) :
    ℚ :=
  if minItems ≤ getItemCount c then getTotal c * (1 - discountRate)
  else getTotal c

/-- The clear method (lines 198-200): self.items = []. -/
def ShoppingCart.clear (_c : ShoppingCart) : ShoppingCart := ⟨[]⟩

/-- The invariant of the claim: every entry of the items list has a non-empty
item name, a non-negative price and a strictly positive quantity. -/
def CartInv (c : ShoppingCart) : Prop :=
  ∀ it ∈ c.items, it.item ≠ "" ∧ 0 ≤ it.price ∧ 0 < it.quantity

end PytestGood

namespace Corpus

/-- One source file of the corpus: its path as components relative to the
repository root, and the modules its import statements name, each recorded as
the number of leading dots (0 for an absolute import) together with the
dotted components.  Transcribed from the import statements of the source
files. -/
structure PyFile where
  path : List String
  mods : List (Nat × List String)
  deriving DecidableEq, Repr

/-- The file src/sample_project/tests/test_calculator.py and its imports
(lines 3-4). -/
def sampleProjectTestFile : PyFile :=
  ⟨["sample_project", "tests", "test_calculator.py"],
   [(0, ["pytest"]), (0, ["src", "calculator"])]⟩

/-- All 29 Python source files of the corpus with the modules they import,
transcribed from the source. -/
def corpus : List PyFile :=
  [⟨["examples", "bandit_security_example_fixed.py"],
    [(0, ["os"]), (0, ["subprocess"]), (0, ["json"]), (0, ["secrets"]),
     (0, ["tempfile"]), (0, ["sqlite3"]), (0, ["pathlib"])]⟩,
   ⟨["examples", "black_formatting_example_donot_fixme.py"], []⟩,
   ⟨["examples", "flake8_style_example_fixed.py"],
    [(0, ["json"]), (0, ["os"]), (0, ["sys"]), (0, ["typing"])]⟩,
   ⟨["examples", "isort_import_example_donot_fixme.py"],
    [(0, ["requests"]), (0, ["sys"]), (0, ["collections"]), (0, ["json"]),
     (0, ["typing"]), (0, ["os"]), (1, ["local_module"]), (0, ["datetime"]),
     (0, ["pandas"]), (0, ["flask"]), (0, ["re"]), (0, ["pathlib"]),
     (2, ["utils"]), (0, ["sqlite3"]), (0, ["numpy"]), (1, ["models"]),
     (0, ["logging"]), (0, ["django", "conf"]), (0, ["asyncio"]),
     (0, ["concurrent", "futures"]), (0, ["tempfile"]), (0, ["click"]),
     (0, ["elasticsearch"]), (0, ["hashlib"]), (0, ["urllib", "parse"]),
     (1, ["config"]), (2, ["services", "auth"])]⟩,
   ⟨["examples", "mypy_type_example_fixed.py"],
    [(0, ["typing"]), (0, ["json"])]⟩,
   ⟨["older_examples", "donot_fixme",
     "pytest_testing_example_donot_fixme.py"], []⟩,
   ⟨["older_examples", "fixed", "bandit_security_example_fixed.py"],
    [(0, ["json"]), (0, ["os"]), (0, ["secrets"]), (0, ["sqlite3"]),
     (0, ["subprocess"]), (0, ["tempfile"]), (0, ["pathlib"]),
     (0, ["shutil"]), (0, ["subprocess"])]⟩,
   ⟨["older_examples", "fixed", "black_formatting_example_fixed.py"], []⟩,
   ⟨["older_examples", "fixed", "isort_import_example_fixed.py"],
    [(0, ["asyncio"]), (0, ["datetime"]), (0, ["hashlib"]), (0, ["json"]),
     (0, ["logging"]), (0, ["os"]), (0, ["re"]), (0, ["sqlite3"]),
     (0, ["sys"]), (0, ["tempfile"]), (0, ["collections"]),
     (0, ["concurrent", "futures"]), (0, ["pathlib"]), (0, ["typing"]),
     (0, ["urllib", "parse"]), (0, ["click"]), (0, ["numpy"]),
     (0, ["pandas"]), (0, ["requests"]), (0, ["django", "conf"]),
     (0, ["elasticsearch"]), (0, ["flask"]), (2, ["services", "auth"]),
     (2, ["utils"]), (1, ["config"]), (1, ["local_module"]),
     (1, ["models"])]⟩,
   ⟨["older_examples", "fixed", "pytest_testing_example_fixed.py"],
    [(0, ["re"]), (0, ["typing"]), (0, ["pytest"]), (0, ["pytest"]),
     (0, ["pytest"])]⟩,
   ⟨["sample_project", "src", "calculator.py"], [(0, ["typing"])]⟩,
   sampleProjectTestFile,
   ⟨["tools", "bandit", "bad_example.py"],
    [(0, ["os"]), (0, ["subprocess"]), (0, ["hashlib"]), (0, ["pickle"]),
     (0, ["random"]), (0, ["tempfile"]), (0, ["sqlite3"]), (0, ["random"]),
     (0, ["yaml"]), (0, ["http", "server"])]⟩,
   ⟨["tools", "bandit", "examples",
     "bandit_security_example_donot_fixme.py"],
    [(0, ["os"]), (0, ["pickle"]), (0, ["random"]), (0, ["subprocess"]),
     (0, ["subprocess"])]⟩,
   ⟨["tools", "bandit", "good_example.py"],
    [(0, ["json"]), (0, ["os"]), (0, ["subprocess"]), (0, ["hashlib"]),
     (0, ["secrets"]), (0, ["tempfile"]), (0, ["pathlib"]), (0, ["typing"]),
     (0, ["sqlite3"]), (0, ["yaml"]), (0, ["bcrypt"]),
     (0, ["http", "server"]), (0, ["pathlib"])]⟩,
   ⟨["tools", "black", "bad_example.py"],
    [(0, ["os"]), (0, ["sys"]), (0, ["json"]), (0, ["typing"])]⟩,
   ⟨["tools", "black", "good_example.py"],
    [(0, ["json"]), (0, ["os"]), (0, ["sys"]), (0, ["typing"])]⟩,
   ⟨["tools", "flake8", "bad_example.py"],
    [(0, ["os"]), (0, ["sys"]), (0, ["re"]), (0, ["json"]),
     (0, ["unused_module"]), (0, ["os"])]⟩,
   ⟨["tools", "flake8", "examples", "flake8_style_example_donot_fixme.py"],
    [(0, ["json"]), (0, ["os"]), (0, ["sys"]), (0, ["collections"]),
     (0, ["unused_module"])]⟩,
   ⟨["tools", "flake8", "good_example.py"], [(0, ["typing"])]⟩,
   ⟨["tools", "isort", "bad_example.py"],
    [(0, ["sys"]), (0, ["os", "path"]), (0, ["json"]), (0, ["typing"]),
     (0, ["os"]), (0, ["collections"]), (0, ["requests"]), (0, ["sqlite3"]),
     (0, ["urllib", "parse"]), (0, ["datetime"]), (0, ["dataclasses"]),
     (0, ["numpy"]), (0, ["pathlib"]), (0, ["re"]), (0, ["flask"]),
     (0, ["asyncio"]), (0, ["concurrent", "futures"]), (0, ["pandas"]),
     (0, ["myapp", "models"]), (0, ["threading"]), (0, ["myapp", "utils"]),
     (0, ["time"]), (0, ["django", "db"]), (0, ["myapp", "config"]),
     (0, ["logging"]), (0, ["myapp", "views"]), (0, ["uuid"]),
     (0, ["sqlalchemy"])]⟩,
   ⟨["tools", "isort", "examples", "isort_import_example_donot_fixme.py"],
    [(0, ["asyncio"]), (0, ["datetime"]), (0, ["hashlib"]), (0, ["json"]),
     (0, ["logging"]), (0, ["os"]), (0, ["re"]), (0, ["sqlite3"]),
     (0, ["sys"]), (0, ["tempfile"]), (0, ["collections"]),
     (0, ["concurrent", "futures"]), (0, ["pathlib"]), (0, ["typing"]),
     (0, ["urllib", "parse"]), (0, ["click"]), (0, ["numpy"]),
     (0, ["pandas"]), (0, ["requests"]), (0, ["django", "conf"]),
     (0, ["elasticsearch"]), (0, ["flask"]), (2, ["services", "auth"]),
     (2, ["utils"]), (1, ["config"]), (1, ["local_module"]),
     (1, ["models"])]⟩,
   ⟨["tools", "isort", "good_example.py"],
    [(0, ["asyncio"]), (0, ["datetime"]), (0, ["json"]), (0, ["logging"]),
     (0, ["os"]), (0, ["re"]), (0, ["sqlite3"]), (0, ["sys"]),
     (0, ["threading"]), (0, ["time"]), (0, ["uuid"]), (0, ["collections"]),
     (0, ["concurrent", "futures"]), (0, ["dataclasses"]),
     (0, ["os", "path"]), (0, ["pathlib"]), (0, ["typing"]),
     (0, ["urllib", "parse"]), (0, ["numpy"]), (0, ["pandas"]),
     (0, ["requests"]), (0, ["django", "db"]), (0, ["flask"]),
     (0, ["sqlalchemy"]), (0, ["myapp", "config"]), (0, ["myapp", "models"]),
     (0, ["myapp", "utils"]), (0, ["myapp", "views"]),
     (0, ["matplotlib", "pyplot"]), (0, ["typing"]),
     (0, ["myapp", "advanced_types"])]⟩,
   ⟨["tools", "mypy", "bad_example.py"],
    [(0, ["typing"]), (0, ["json"])]⟩,
   ⟨["tools", "mypy", "examples", "mypy_type_example_donot_fixme.py"],
    [(0, ["typing"]), (0, ["json"])]⟩,
   ⟨["tools", "mypy", "good_example.py"],
    [(0, ["json"]), (0, ["typing"]), (0, ["typing"])]⟩,
   ⟨["tools", "pytest", "bad_example.py"],
    [(0, ["math"]), (0, ["random"]), (0, ["typing"])]⟩,
   ⟨["tools", "pytest", "good_example.py"],
    [(0, ["math"]), (0, ["re"]), (0, ["contextlib"]), (0, ["typing"]),
     (0, ["pytest"])]⟩,
   ⟨["tools", "template", "good_example.py"], []⟩]

/-- Directory of a file path: all components but the last. -/
def dirOf (p : List String) : List String := p.dropLast

/-- Candidate base directories an absolute import can resolve against: the
corpus root and every directory on the importing file's path (a Python
process run from any of these directories has it on sys.path). -/
def basesOf (d : List String) : List (List String) :=
  (List.range (d.length + 1)).map (fun k => d.take k)

/-- Path of the file a dotted module name denotes, relative to a base
directory. -/
def moduleFile (m : List String) : List String :=
  m.dropLast ++ [m.getLastD "" ++ ".py"]

/-- File paths an import statement of a file could resolve to: an
absolute import resolves against any candidate base, a relative import
with k leading dots resolves against the importing file's directory raised
k - 1 levels. -/
def targetsOf (f : PyFile) (imp : Nat × List String) : List (List String) :=
  if imp.1 = 0 then
    (basesOf (dirOf f.path)).map (fun b => b ++ moduleFile imp.2)
  else
    [(dirOf f.path).take ((dirOf f.path).length - (imp.1 - 1)) ++
      moduleFile imp.2]

/-- Paths of all corpus files. -/
def corpusPaths : List (List String) := corpus.map (fun f => f.path)

/-- A file is standalone when none of its imports resolves to another file of
the corpus. -/
def standalone (f : PyFile) : Bool :=
  !(f.mods.any (fun imp =>
    (targetsOf f imp).any (fun t => t ≠ f.path ∧ t ∈ corpusPaths)))

end Corpus

open Harness

/-! Helper lemmas about the harness summary counts and result lookup. -/

theorem countOf_cons (t : ToolId) (r : CaseResult)
    (p : ExampleCase × CaseResult) (rep : List (ExampleCase × CaseResult)) :
    countOf t r (p :: rep) =
      (if p.1.tool = t ∧ p.2 = r then 1 else 0) + countOf t r rep := by
  by_cases h : p.1.tool = t ∧ p.2 = r <;>
    simp [countOf, List.filter_cons, h]
  omega

theorem countOf_split (t : ToolId) (rep : List (ExampleCase × CaseResult)) :
    countOf t .PASS rep + countOf t .FAIL rep + countOf t .ERROR rep =
      (rep.filter (fun p => p.1.tool = t)).length := by
  induction rep with
  | nil => rfl
  | cons p rest ih =>
    rw [countOf_cons, countOf_cons, countOf_cons, List.filter_cons]
    rcases hr : p.2 <;> by_cases ht : p.1.tool = t <;>
      simp [ht, hr] <;> omega

theorem filter_tool_sum (rep : List (ExampleCase × CaseResult)) :
    (allTools.map
      (fun t => (rep.filter (fun p => p.1.tool = t)).length)).sum =
      rep.length := by
  induction rep with
  | nil => rfl
  | cons p rest ih =>
    rcases ht : p.1.tool <;>
      simp [allTools, List.filter_cons, ht] at ih ⊢ <;> omega

theorem summaryTotal_eq_length (rep : List (ExampleCase × CaseResult)) :
    summaryTotal rep = rep.length := by
  unfold summaryTotal
  rw [List.map_congr_left (fun t _ => countOf_split t rep)]
  exact filter_tool_sum rep

theorem collectResults_map_fst (invoke : ExampleCase → InvocationOutcome)
    (cases : List ExampleCase) :
    (collectResults invoke cases).map Prod.fst = cases := by
  simp [collectResults, runCase, List.map_map, Function.comp_def]

theorem findResult_perm {l₁ l₂ : List (ExampleCase × CaseResult)}
    (p : l₁.Perm l₂) (nd : (l₁.map (fun pr => pr.1.path)).Nodup)
    (path : String) : findResult path l₁ = findResult path l₂ := by
  induction p with
  | nil => rfl
  | cons x q ih =>
    have nd2 := (List.nodup_cons.mp nd).2
    simp only [findResult]
    by_cases h : x.1.path = path <;> simp [h, ih nd2]
  | swap x y l =>
    have hxy : y.1.path ≠ x.1.path := by
      have h0 := (List.nodup_cons.mp nd).1
      intro h
      exact h0 (by simp [h])
    simp only [findResult]
    by_cases h1 : y.1.path = path <;> by_cases h2 : x.1.path = path <;>
      simp [h1, h2]
    exact absurd (h1.trans h2.symm) hxy
  | trans q₁ q₂ ih₁ ih₂ =>
    have nd₂ := ((q₁.map (fun pr => pr.1.path)).nodup_iff).mp nd
    exact (ih₁ nd).trans (ih₂ nd₂)

theorem findResult_in_discovery (invoke : ExampleCase → InvocationOutcome)
    (cases : List ExampleCase)
    (nd : (cases.map (fun c => c.path)).Nodup) :
    ∀ c ∈ cases, findResult c.path (collectResults invoke cases) =
      some (classify c.expectation (invoke c)) := by
  induction cases with
  | nil => intro c hc; cases hc
  | cons a rest ih =>
    intro c hc
    rcases List.nodup_cons.mp nd with ⟨hnot, nd2⟩
    cases hc with
    | head => simp [collectResults, runCase, findResult]
    | tail _ hmem =>
      have hne : a.path ≠ c.path := by
        intro h
        apply hnot
        show a.path ∈ List.map (fun c => c.path) rest
        rw [h]
        exact List.mem_map_of_mem (fun c => c.path) hmem
      simp only [collectResults, List.map_cons, findResult, runCase]
      rw [if_neg hne]
      exact ih nd2 c hmem

/-! Theorems settling the claims. -/

/-- Claim C1: the result-classification function maps (expectation kind,
exit status) to a CaseResult exactly per the policy table: expect_clean
passes exactly on exit status 0, expect_findings passes exactly on a
non-zero exit status, and expect_tests_pass passes exactly when the exit
status is 0 and the reported test count is greater than 0; in every other
completed outcome the classification is FAIL. -/
theorem classify_policy_table (s : Nat) (o : String) (tc : Option Nat) :
    ((classify .expect_clean (.completed s o tc) = .PASS ↔ s = 0)
      ∧ (classify .expect_clean (.completed s o tc) = .FAIL ↔ s ≠ 0))
    ∧ ((classify .expect_findings (.completed s o tc) = .PASS ↔ s ≠ 0)
      ∧ (classify .expect_findings (.completed s o tc) = .FAIL ↔ s = 0))
    ∧ ((classify .expect_tests_pass (.completed s o tc) = .PASS ↔
          s = 0 ∧ ∃ k, tc = some k ∧ 0 < k)
      ∧ (classify .expect_tests_pass (.completed s o tc) = .FAIL ↔
          ¬(s = 0 ∧ ∃ k, tc = some k ∧ 0 < k))) := by
  rcases tc with _ | k <;> simp only [classify] <;>
    constructor <;> try constructor
  all_goals (try split_ifs with h) <;> simp_all

/-- Claim C2: only a DiscoveryError aborts the run before any case executes;
every per-case error (binary missing or unstartable, timeout, crash) is
recorded as an ERROR classification for that case, distinct from FAIL and
regardless of the expectation, and the Report still classifies every
discovered case. -/
theorem run_error_containment (invoke : ExampleCase → InvocationOutcome) :
    (∀ e, runHarness (.error e) invoke = .error e)
    ∧ (∀ cases, runHarness (.ok cases) invoke =
          .ok (collectResults invoke cases)
        ∧ (collectResults invoke cases).map Prod.fst = cases
        ∧ ∀ c ∈ cases, (invoke c = .execError ∨ invoke c = .timedOut ∨
              invoke c = .crashed) →
            (c, CaseResult.ERROR) ∈ collectResults invoke cases)
    ∧ CaseResult.ERROR ≠ CaseResult.FAIL := by
  refine ⟨fun e => rfl, fun cases => ⟨rfl, collectResults_map_fst _ _, ?_⟩,
    by decide⟩
  intro c hc herr
  have hmem : runCase invoke c ∈ collectResults invoke cases :=
    List.mem_map_of_mem (runCase invoke) hc
  rcases herr with h | h | h <;> simpa [runCase, h, classify] using hmem

/-- Claim C2 witness: a harness run over two cases whose tools respectively
crash and fail to start records an ERROR result for each of them. -/
theorem run_error_containment_witness :
    ((⟨"a.py", .formatter, .expect_clean⟩ : ExampleCase),
      CaseResult.ERROR) ∈
      collectResults (fun _ => .crashed)
        [⟨"a.py", .formatter, .expect_clean⟩]
    ∧ ((⟨"b.py", .testRunner, .expect_tests_pass⟩ : ExampleCase),
      CaseResult.ERROR) ∈
      collectResults (fun _ => .execError)
        [⟨"b.py", .testRunner, .expect_tests_pass⟩] :=
  ⟨((run_error_containment (fun _ => .crashed)).2.1
      [⟨"a.py", .formatter, .expect_clean⟩]).2.2 _
      (List.mem_singleton.mpr rfl) (Or.inr (Or.inr rfl)),
    ((run_error_containment (fun _ => .execError)).2.1
      [⟨"b.py", .testRunner, .expect_tests_pass⟩]).2.2 _
      (List.mem_singleton.mpr rfl) (Or.inl rfl)⟩

/-- Claim C4: tool invocation raises ExecutionError exactly when the binary
cannot be located or the process cannot be started, signals TimeoutError
(classified as ERROR) exactly when the timeout elapses, and otherwise
returns the captured exit status and output without raising, whatever the
exit status is. -/
theorem invokeTool_contract (env : ToolEnv) (timeout : Nat)
    (e : Expectation) :
    (invokeTool env timeout = .execError ↔
      env.binaryFound = false ∨ env.processStarts = false)
    ∧ (invokeTool env timeout = .timedOut ↔
      env.binaryFound = true ∧ env.processStarts = true ∧
        timeout < env.duration)
    ∧ (env.binaryFound = true → env.processStarts = true →
        env.duration ≤ timeout →
        invokeTool env timeout =
          .completed env.exitStatus env.output env.testCount)
    ∧ classify e .execError = .ERROR ∧ classify e .timedOut = .ERROR := by
  refine ⟨?_, ?_, ?_, rfl, rfl⟩ <;>
    rcases hbf : env.binaryFound <;> rcases hps : env.processStarts <;>
      by_cases hd : timeout < env.duration <;>
        simp [invokeTool, hbf, hps, hd]

/-- Claim C4 witness: with the binary present, the process startable and the
duration within the timeout, the invocation returns the captured non-zero
exit status and output without raising. -/
theorem invokeTool_contract_witness :
    invokeTool ⟨true, true, 1, 3, "out", none⟩ 30 =
      .completed 3 "out" none :=
  (invokeTool_contract ⟨true, true, 1, 3, "out", none⟩ 30
    .expect_clean).2.2.1 rfl rfl (by norm_num)

/-- Claim C5: the Report contains exactly one CaseResult for each discovered
case, in discovery order (so no case is duplicated or dropped), and the
per-tool pass, fail and error counts sum to the total number of discovered
cases. -/
theorem report_complete_and_counts_sum
    (invoke : ExampleCase → InvocationOutcome) (cases : List ExampleCase) :
    (collectResults invoke cases).map Prod.fst = cases
    ∧ (collectResults invoke cases).length = cases.length
    ∧ summaryTotal (collectResults invoke cases) = cases.length := by
  refine ⟨collectResults_map_fst _ _, by simp [collectResults], ?_⟩
  rw [summaryTotal_eq_length]
  simp [collectResults]

/-- Claim C7: the CLI exit-code mapper returns 0 exactly when every
classification in the Report is PASS, 1 when some classification is FAIL or
ERROR, and 2 exactly when discovery itself failed before any case ran. -/
theorem exitCode_mapping
    (outcome : Except DiscoveryError (List (ExampleCase × CaseResult))) :
    (exitCode outcome = 0 ↔
      ∃ rep, outcome = .ok rep ∧ ∀ p ∈ rep, p.2 = CaseResult.PASS)
    ∧ (exitCode outcome = 2 ↔ ∃ e, outcome = .error e)
    ∧ (∀ rep, outcome = .ok rep →
        (∃ p ∈ rep, p.2 = CaseResult.FAIL ∨ p.2 = CaseResult.ERROR) →
        exitCode outcome = 1) := by
  rcases outcome with e | rep
  · refine ⟨by simp [exitCode], by simp [exitCode], ?_⟩
    intro rep h
    cases h
  · refine ⟨?_,
      by by_cases h : rep.all (fun p => p.2 = CaseResult.PASS) = true <;>
        simp [exitCode, h], ?_⟩
    · by_cases h : rep.all (fun p => p.2 = CaseResult.PASS) = true <;>
        simp_all [exitCode, List.all_eq_true]
    · rintro rep2 heq ⟨p, hp, hor⟩
      injection heq with heq
      subst heq
      have hall : ¬(rep.all (fun p => p.2 = CaseResult.PASS) = true) := by
        simp only [List.all_eq_true]
        intro hall
        have := hall p hp
        rcases hor with h | h <;> simp [h] at this
      simp [exitCode, hall]

/-- Claim C7 witness: a Report with a single FAIL classification maps to exit
code 1. -/
theorem exitCode_mapping_witness :
    exitCode (.ok [(⟨"a.py", .formatter, .expect_clean⟩, .FAIL)]) = 1 :=
  (exitCode_mapping _).2.2 _ rfl
    ⟨(⟨"a.py", .formatter, .expect_clean⟩, .FAIL),
      List.mem_singleton.mpr rfl, Or.inl rfl⟩

/-- Claim C6: report aggregation is a pure function of the CaseResult
sequence and the rendered Report lists results in discovery order regardless
of the order in which concurrent invocations complete: rendering any
permutation of the completed results equals rendering the sequential
discovery-order results, which assigns every case its definitive
classification; hence two runs over the same cases with the same stable tool
behaviour render identical Reports. -/
theorem report_order_deterministic (cases : List ExampleCase)
    (invoke : ExampleCase → InvocationOutcome)
    (completed : List (ExampleCase × CaseResult))
    (nd : (cases.map (fun c => c.path)).Nodup)
    (hperm : completed.Perm (collectResults invoke cases)) :
    renderReport cases completed =
      renderReport cases (collectResults invoke cases)
    ∧ renderReport cases (collectResults invoke cases) =
      cases.map (fun c =>
        (c.path, some (classify c.expectation (invoke c)))) := by
  have hkeys : (collectResults invoke cases).map (fun pr => pr.1.path) =
      cases.map (fun c => c.path) := by
    simp [collectResults, runCase, List.map_map, Function.comp_def]
  have ndcompleted : (completed.map (fun pr => pr.1.path)).Nodup := by
    refine ((hperm.map (fun pr => pr.1.path)).nodup_iff).mpr ?_
    rw [hkeys]
    exact nd
  constructor
  · apply List.map_congr_left
    intro c _
    exact congrArg (fun r => (c.path, r)) (findResult_perm hperm ndcompleted c.path)
  · apply List.map_congr_left
    intro c hc
    rw [findResult_in_discovery invoke cases nd c hc]

/-- Claim C6 witness: rendering the reversed completion order of a two-case
run equals rendering the discovery order. -/
theorem report_order_deterministic_witness :
    renderReport
      [⟨"a.py", .formatter, .expect_clean⟩,
       ⟨"b.py", .typeChecker, .expect_findings⟩]
      ((collectResults (fun _ => .completed 0 "" none)
        [⟨"a.py", .formatter, .expect_clean⟩,
         ⟨"b.py", .typeChecker, .expect_findings⟩]).reverse) =
      renderReport
        [⟨"a.py", .formatter, .expect_clean⟩,
         ⟨"b.py", .typeChecker, .expect_findings⟩]
        (collectResults (fun _ => .completed 0 "" none)
          [⟨"a.py", .formatter, .expect_clean⟩,
           ⟨"b.py", .typeChecker, .expect_findings⟩]) :=
  (report_order_deterministic
    [⟨"a.py", .formatter, .expect_clean⟩,
     ⟨"b.py", .typeChecker, .expect_findings⟩]
    (fun _ => .completed 0 "" none) _ (by decide)
    (List.reverse_perm _)).1

/-- Claim C3 counterexample: not every file of the corpus is standalone —
src/sample_project/tests/test_calculator.py is a corpus file whose import of
src.calculator resolves to the corpus file
src/sample_project/src/calculator.py. -/
theorem corpus_not_all_standalone :
    Corpus.sampleProjectTestFile ∈ Corpus.corpus
    ∧ Corpus.standalone Corpus.sampleProjectTestFile = false
    ∧ Corpus.corpus.all Corpus.standalone = false := by decide

/-- Claim C3 as amended: every file of the corpus is standalone except
src/sample_project/tests/test_calculator.py, which imports the corpus file
src/sample_project/src/calculator.py. -/
theorem corpus_standalone_except_sample_test :
    Corpus.corpus.all
      (fun f => Corpus.standalone f ||
        f.path = Corpus.sampleProjectTestFile.path) = true
    ∧ ["sample_project", "src", "calculator.py"] ∈ Corpus.corpusPaths
    ∧ ["sample_project", "src", "calculator.py"] ∈
        Corpus.targetsOf Corpus.sampleProjectTestFile
          (0, ["src", "calculator"]) := by decide

/-- Claim C8: the sample project's divide raises ValueError exactly when the
divisor is zero and otherwise returns the quotient, and add always returns
the sum without raising. -/
theorem calculator_add_divide (a b : ℚ) :
    (Calculator.divide a b = .error .valueError ↔ b = 0)
    ∧ (b ≠ 0 → Calculator.divide a b = .ok (a / b))
    ∧ Calculator.add a b = a + b := by
  refine ⟨?_, fun hb => ?_, rfl⟩
  · unfold Calculator.divide
    by_cases h : b = 0 <;> simp [h]
  · unfold Calculator.divide
    rw [if_neg hb]

/-- Claim C8 witness: dividing 7 by 2 returns the quotient. -/
theorem calculator_add_divide_witness :
    Calculator.divide 7 2 = .ok (7 / 2) :=
  (calculator_add_divide 7 2).2.1 (by norm_num)

theorem fibLoop_eq (k : Nat) :
    PytestGood.fibLoop k =
      ((PytestGood.fibSpec k : Int), (PytestGood.fibSpec (k + 1) : Int)) := by
  induction k with
  | zero => rfl
  | succ k ih =>
    rw [PytestGood.fibLoop, ih]
    refine Prod.ext rfl ?_
    show (PytestGood.fibSpec k : Int) + (PytestGood.fibSpec (k + 1) : Int) =
      (PytestGood.fibSpec (k + 2) : Int)
    rw [show PytestGood.fibSpec (k + 2) =
      PytestGood.fibSpec k + PytestGood.fibSpec (k + 1) from rfl]
    push_cast
    ring

/-- Claim C9: the iterative fibonacci of the pytest good example returns the
nth Fibonacci number of the reference recurrence for every n >= 0, raises
ValueError for every negative integer input, and raises TypeError for every
non-integer input. -/
theorem fibonacci_correct :
    (∀ n : Nat, PytestGood.fibonacci (.int n) =
        .ok (PytestGood.fibSpec n : Int))
    ∧ (∀ m : Int, m < 0 →
        PytestGood.fibonacci (.int m) = .error .valueError)
    ∧ (∀ q : ℚ, PytestGood.fibonacci (.float q) = .error .typeError) := by
  refine ⟨?_, ?_, fun q => rfl⟩
  · intro n
    simp only [PytestGood.fibonacci]
    split_ifs with h1 h2 h3
    · exact absurd h1 (by omega)
    · have h0 : n = 0 := by omega
      subst h0
      rfl
    · have h0 : n = 1 := by omega
      subst h0
      rfl
    · have h4 : 2 ≤ n := by omega
      rw [show ((n : Int) - 1).toNat = n - 1 by omega, fibLoop_eq,
        show n - 1 + 1 = n by omega]
  · intro m hm
    simp [PytestGood.fibonacci, hm]

/-- Claim C9 witness: fibonacci rejects -1 with ValueError and returns 55 at
10. -/
theorem fibonacci_correct_witness :
    PytestGood.fibonacci (.int (-1)) = .error .valueError
    ∧ PytestGood.fibonacci (.int 10) = .ok 55 := by
  refine ⟨fibonacci_correct.2.1 (-1) (by norm_num), ?_⟩
  rw [show ((10 : Int)) = ((10 : Nat) : Int) from rfl, fibonacci_correct.1 10,
    show (PytestGood.fibSpec 10 : Int) = 55 from by decide]

/-- Claim C10: every ShoppingCart operation preserves the invariant that each
items entry has a non-empty name, a non-negative price and a strictly
positive quantity; under this invariant get_total returns the sum of price
times quantity over the entries, 0 for the empty cart, and get_item_count
and apply_bulk_discount return their values without modifying the cart. -/
theorem shopping_cart_invariant :
    PytestGood.CartInv PytestGood.ShoppingCart.new
    ∧ (∀ c item price quantity c2, PytestGood.CartInv c →
        PytestGood.addItem c item price quantity = .ok c2 →
        PytestGood.CartInv c2)
    ∧ (∀ c : PytestGood.ShoppingCart, PytestGood.CartInv c →
        PytestGood.CartInv c.clear)
    ∧ PytestGood.getTotal PytestGood.ShoppingCart.new = 0
    ∧ (∀ c, PytestGood.CartInv c →
        PytestGood.getTotal c =
          (c.items.map (fun it => it.price * (it.quantity : ℚ))).sum
        ∧ PytestGood.getItemCount c =
          (c.items.map (fun it => it.quantity)).sum
        ∧ ∀ minItems rate,
            PytestGood.applyBulkDiscount c minItems rate =
              if minItems ≤ PytestGood.getItemCount c
              then PytestGood.getTotal c * (1 - rate)
              else PytestGood.getTotal c) := by
  refine ⟨?_, ?_, ?_, rfl, fun c _ => ⟨rfl, rfl, fun m r => rfl⟩⟩
  · intro it h
    simp [PytestGood.ShoppingCart.new] at h
  · intro c item price quantity c2 hInv hok
    unfold PytestGood.addItem at hok
    split_ifs at hok with h1 h2 h3
    injection hok with hok
    subst hok
    intro it hmem
    rcases List.mem_append.mp hmem with hmem | hmem
    · exact hInv it hmem
    · simp at hmem
      subst hmem
      refine ⟨h1, not_lt.mp h2, ?_⟩
      show (0 : Int) < quantity
      omega
  · intro c _ it h
    simp [PytestGood.ShoppingCart.clear] at h

/-- Claim C10 witness: adding a valid item to the empty cart yields a cart
satisfying the invariant. -/
theorem shopping_cart_invariant_witness :
    PytestGood.CartInv ⟨[⟨"Apple", 3 / 2, 2⟩]⟩ :=
  shopping_cart_invariant.2.1 PytestGood.ShoppingCart.new "Apple" (3 / 2) 2
    ⟨[⟨"Apple", 3 / 2, 2⟩]⟩ shopping_cart_invariant.1
    (by
      unfold PytestGood.addItem
      rw [if_neg (by decide), if_neg (by norm_num), if_neg (by decide),
        show PytestGood.pyStrip "Apple" = "Apple" from by decide]
      rfl)
